import Mathlib

set_option maxHeartbeats 1000000

/-! Shallow embedding of the platformer gameplay core (src/movement.rs,
    src/collision.rs, src/transition.rs) over exact rationals.  f32 values
    are modelled as rationals; the small constants (SKIN, f32::EPSILON)
    keep their exact values. -/

structure Vec2q where
  x : ℚ
  y : ℚ
deriving DecidableEq

structure Vec3q where
  x : ℚ
  y : ℚ
  z : ℚ
deriving DecidableEq

/-- movement.rs: `const SKIN: f32 = 0.001;` -/
def SKIN : ℚ := 1 / 1000

/-- f32::EPSILON = 2^-23, used as the dead-zone threshold in movement.rs. -/
def EPSILON : ℚ := 1 / 2 ^ 23

/-- Rust `f32::signum` on exact rationals: 1 for nonnegative (`+0.0` included),
    -1 for negative. -/
def rustSignum (x : ℚ) : ℚ := if x < 0 then -1 else 1

/-- movement.rs lines 316-323. -/
def move_towards (current target max_delta : ℚ) : ℚ :=
  let delta := target - current
  if |delta| ≤ max_delta then target else current + rustSignum delta * max_delta

/-- collision.rs `CollisionMap`: the HashSet of solid tiles and the HashMap of
    tile values are modelled extensionally as functions. -/
structure CollisionMap where
  tile_size : Vec2q
  origin : Vec2q
  solids : ℤ × ℤ → Bool
  tile_values : ℤ × ℤ → Option ℤ

/-- collision.rs lines 51-53. -/
def CollisionMap.is_solid (m : CollisionMap) (tile : ℤ × ℤ) : Bool := m.solids tile

/-- collision.rs lines 56-58. -/
def CollisionMap.get_tile_value (m : CollisionMap) (tile : ℤ × ℤ) : Option ℤ :=
  m.tile_values tile

/-- collision.rs lines 45-48: `clear` empties both collections. -/
def CollisionMap.clear (m : CollisionMap) : CollisionMap :=
  { m with solids := fun _ => false, tile_values := fun _ => none }

/-- Rust inclusive range `lo..=hi` as a list of integers. -/
def intRange (lo hi : ℤ) : List ℤ := (List.range (hi + 1 - lo).toNat).map (fun i => lo + (i : ℤ))

/-- The `for ty in min_tile_y..=max_tile_y { if map.is_solid(...) }` scan of a
    tile column in `resolve_horizontal`. -/
def anySolidRows (m : CollisionMap) (tx lo hi : ℤ) : Bool :=
  (intRange lo hi).any (fun ty => m.is_solid (tx, ty))

/-- The `for tx in min_tile_x..=max_tile_x { if map.is_solid(...) }` scan of a
    tile row in `resolve_vertical`. -/
def anySolidCols (m : CollisionMap) (ty lo hi : ℤ) : Bool :=
  (intRange lo hi).any (fun tx => m.is_solid (tx, ty))

structure HResult where
  position : Vec3q
  velocity : ℚ
deriving DecidableEq

/-- movement.rs lines 212-258 (`resolve_horizontal`): swept horizontal pass.
    The returned pair is the updated `position` / `velocity.x`. -/
def resolve_horizontal (position : Vec3q) (velocity : ℚ) (half : Vec2q) (dt : ℚ)
    (map : CollisionMap) : HResult :=
  if |velocity| < EPSILON then ⟨position, velocity⟩
  else
    let new_x := position.x + velocity * dt
    let dir := rustSignum velocity
    let bottom := position.y - half.y + SKIN
    let top := position.y + half.y - SKIN
    let tile_size := map.tile_size.x
    let min_tile_y := ⌊(bottom - map.origin.y) / map.tile_size.y⌋
    let max_tile_y := ⌊(top - map.origin.y) / map.tile_size.y⌋
    if 0 < dir then
      let edge := new_x + half.x
      let tile_x := ⌊(edge - map.origin.x) / tile_size⌋
      if anySolidRows map tile_x min_tile_y max_tile_y then
        ⟨{ position with x := map.origin.x + (tile_x : ℚ) * tile_size - half.x - SKIN }, 0⟩
      else ⟨{ position with x := new_x }, velocity⟩
    else if dir < 0 then
      let edge := new_x - half.x
      let tile_x := ⌊(edge - map.origin.x) / tile_size⌋
      if anySolidRows map tile_x min_tile_y max_tile_y then
        ⟨{ position with x := map.origin.x + ((tile_x : ℚ) + 1) * tile_size + half.x + SKIN }, 0⟩
      else ⟨{ position with x := new_x }, velocity⟩
    else ⟨{ position with x := new_x }, velocity⟩

/-- movement.rs lines 202-205. -/
structure VerticalCollision where
  down : Bool
  up : Bool
deriving DecidableEq

structure VResult where
  position : Vec3q
  velocity : ℚ
  collision : VerticalCollision
deriving DecidableEq

/-- movement.rs lines 263-312 (`resolve_vertical`): swept vertical pass, run on
    the position already updated by the horizontal pass. -/
def resolve_vertical (position : Vec3q) (velocity : ℚ) (half : Vec2q) (dt : ℚ)
    (map : CollisionMap) : VResult :=
  let new_y := position.y + velocity * dt
  let dir := rustSignum velocity
  let left := position.x - half.x + SKIN
  let right := position.x + half.x - SKIN
  let tile_width := map.tile_size.x
  let tile_height := map.tile_size.y
  let min_tile_x := ⌊(left - map.origin.x) / tile_width⌋
  let max_tile_x := ⌊(right - map.origin.x) / tile_width⌋
  if dir < 0 then
    let edge := new_y - half.y
    let tile_y := ⌊(edge - map.origin.y) / tile_height⌋
    if anySolidCols map tile_y min_tile_x max_tile_x then
      ⟨{ position with y := map.origin.y + ((tile_y : ℚ) + 1) * tile_height + half.y + SKIN },
        0, ⟨true, false⟩⟩
    else ⟨{ position with y := new_y }, velocity, ⟨false, false⟩⟩
  else if 0 < dir then
    let edge := new_y + half.y
    let tile_y := ⌊(edge - map.origin.y) / tile_height⌋
    if anySolidCols map tile_y min_tile_x max_tile_x then
      ⟨{ position with y := map.origin.y + (tile_y : ℚ) * tile_height - half.y - SKIN },
        0, ⟨false, true⟩⟩
    else ⟨{ position with y := new_y }, velocity, ⟨false, false⟩⟩
  else ⟨{ position with y := new_y }, velocity, ⟨false, false⟩⟩

/-- movement.rs lines 328-350 (`grounded_check`): auxiliary foot probe. -/
def grounded_check (position : Vec3q) (half : Vec2q) (map : CollisionMap) : Bool :=
  let foot := position.y - half.y
  let probe := foot - SKIN * 2
  let tile_height := map.tile_size.y
  let tile_width := map.tile_size.x
  let tile_y := ⌊(probe - map.origin.y) / tile_height⌋
  let left := position.x - half.x + SKIN
  let right := position.x + half.x - SKIN
  let min_tile_x := ⌊(left - map.origin.x) / tile_width⌋
  let max_tile_x := ⌊(right - map.origin.x) / tile_width⌋
  (intRange min_tile_x max_tile_x).any fun tx =>
    map.is_solid (tx, tile_y) &&
      decide (map.origin.y + ((tile_y : ℚ) + 1) * tile_height - SKIN * 4 ≤ foot)

/-- movement.rs `MovementSettings`. -/
structure Settings where
  gravity : ℚ
  terminal_velocity : ℚ
deriving DecidableEq

def defaultSettings : Settings := ⟨1150, -1800⟩

/-- movement.rs `PlayerController`. -/
structure Controller where
  ground_accel : ℚ
  air_accel : ℚ
  ground_max_speed : ℚ
  air_max_speed : ℚ
  jump_strength : ℚ
deriving DecidableEq

def defaultController : Controller := ⟨1600, 1200, 325, 275, 480⟩

/-- One kinematic body: Transform.translation, Velocity, MovementState. -/
structure Body where
  position : Vec3q
  velocity : Vec2q
  on_ground : Bool
  wants_jump : Bool
  axis : ℚ
deriving DecidableEq

/-- movement.rs lines 159-166: gravity / grounded velocity.y adjustment. -/
def gravityVelocityY (s : Settings) (on_ground : Bool) (vy dt : ℚ) : ℚ :=
  if on_ground = false then
    let vy1 := vy - s.gravity * dt
    if vy1 < s.terminal_velocity then s.terminal_velocity else vy1
  else if vy < 0 then 0 else vy

/-- movement.rs lines 168-179: acceleration of velocity.x toward the target speed. -/
def accelVelocityX (c : Controller) (on_ground : Bool) (axis vx dt : ℚ) : ℚ :=
  let accel_rate := if on_ground then c.ground_accel else c.air_accel
  let max_speed := if on_ground then c.ground_max_speed else c.air_max_speed
  if EPSILON < |axis| then move_towards vx (axis * max_speed) (accel_rate * dt)
  else move_towards vx 0 (accel_rate * dt)

/-- movement.rs lines 181-186: integrated velocities fed through the two
    resolution passes, vertical running on the horizontally-resolved position. -/
def resolvedAfterMove (s : Settings) (c : Controller) (half : Vec2q) (dt : ℚ)
    (map : CollisionMap) (b : Body) : HResult × VResult :=
  let vy0 := gravityVelocityY s b.on_ground b.velocity.y dt
  let vx0 := accelVelocityX c b.on_ground b.axis b.velocity.x dt
  let h := resolve_horizontal b.position vx0 half dt map
  let v := resolve_vertical h.position vy0 half dt map
  (h, v)

/-- movement.rs line 188: `vertical_collision.down || grounded_check(...)`. -/
def groundedAfterResolve (s : Settings) (c : Controller) (half : Vec2q) (dt : ℚ)
    (map : CollisionMap) (b : Body) : Bool :=
  let v := (resolvedAfterMove s c half dt map b).2
  v.collision.down || grounded_check v.position half map

/-- The guard of movement.rs lines 192-195: a jump impulse fires exactly when
    the captured `wants_jump` intent meets the freshly computed grounded flag. -/
def jumpFired (s : Settings) (c : Controller) (half : Vec2q) (dt : ℚ)
    (map : CollisionMap) (b : Body) : Bool :=
  b.wants_jump && groundedAfterResolve s c half dt map b

/-- movement.rs lines 139-198 (`apply_kinematics`), one tick for one body. -/
def applyKinematics (s : Settings) (c : Controller) (half : Vec2q) (dt : ℚ)
    (map : CollisionMap) (b : Body) : Body :=
  let wants_jump := b.wants_jump
  let r := resolvedAfterMove s c half dt map b
  let grounded := r.2.collision.down || grounded_check r.2.position half map
  if wants_jump && grounded then
    { position := r.2.position, velocity := ⟨r.1.velocity, c.jump_strength⟩,
      on_ground := false, wants_jump := false, axis := b.axis }
  else
    { position := r.2.position, velocity := ⟨r.1.velocity, r.2.velocity⟩,
      on_ground := grounded, wants_jump := false, axis := b.axis }

/-! Transition system (src/transition.rs). -/

/-- transition.rs lines 33-40 (`TransitionState` resource). -/
structure TransitionState where
  is_transitioning : Bool
  fade_timer : ℚ
  fade_duration : ℚ
  next_level_path : Option String
  next_level_name : Option String
deriving DecidableEq

/-- The `Default` derive of `TransitionState`. -/
def initialTransitionState : TransitionState := ⟨false, 0, 0, none, none⟩

/-- transition.rs lines 43-49. -/
def TransitionState.start_transition (s : TransitionState) (level_path level_name : String) :
    TransitionState :=
  { s with
    is_transitioning := true
    fade_timer := 0
    fade_duration := 1
    next_level_path := some level_path
    next_level_name := some level_name }

/-- transition.rs lines 51-56. -/
def TransitionState.reset (s : TransitionState) : TransitionState :=
  { s with
    is_transitioning := false
    fade_timer := 0
    next_level_path := none
    next_level_name := none }

/-- transition.rs lines 59-72. -/
def TransitionState.get_fade_alpha (s : TransitionState) : ℚ :=
  if s.is_transitioning = false then 0
  else
    let half_duration := s.fade_duration * (1 / 2)
    if s.fade_timer < half_duration then s.fade_timer / half_duration
    else 1 - (s.fade_timer - half_duration) / half_duration

/-- level.rs `LevelConfig` resource (project path plus start level), the two
    fields written by the midpoint swap. -/
structure LevelConfig where
  project_path : String
  start_level : Option String
deriving DecidableEq

/-- Result of one `update_transition` tick: the new transition state, the new
    level config, and whether the level swap (pending level consumed, load
    requested) happened this tick. -/
structure UpdateOut where
  transition : TransitionState
  config : LevelConfig
  swapped : Bool
deriving DecidableEq

/-- transition.rs lines 223-249 (`update_transition`).  Both `take()` calls run
    before the tuple pattern is matched, so the pending fields are cleared at
    the midpoint tick whether or not the swap fires. -/
def update_transition (dt : ℚ) (s : TransitionState) (cfg : LevelConfig) : UpdateOut :=
  if s.is_transitioning = false then ⟨s, cfg, false⟩
  else
    let timer := s.fade_timer + dt
    let half_duration := s.fade_duration * (1 / 2)
    let mid : TransitionState × LevelConfig × Bool :=
      if half_duration ≤ timer ∧ timer - dt < half_duration then
        match s.next_level_path, s.next_level_name with
        | some path, some name =>
            ({ s with
                fade_timer := timer
                next_level_path := none
                next_level_name := none },
              { project_path := path, start_level := some name }, true)
        | _, _ =>
            ({ s with
                fade_timer := timer
                next_level_path := none
                next_level_name := none },
              cfg, false)
      else ({ s with fade_timer := timer }, cfg, false)
    if mid.1.fade_duration ≤ mid.1.fade_timer then ⟨mid.1.reset, mid.2.1, mid.2.2⟩
    else ⟨mid.1, mid.2.1, mid.2.2⟩

/-- Number of level swaps over a sequence of ticks. -/
def swapCount (s : TransitionState) (cfg : LevelConfig) : List ℚ → ℕ
  | [] => 0
  | dt :: rest =>
    let r := update_transition dt s cfg
    (if r.swapped then 1 else 0) + swapCount r.transition r.config rest

/-- level.rs `LevelAssets`: only the project path field is consulted by the
    trigger check. -/
structure LevelAssets where
  project_path : Option String

def TEST_MAP_PATH : String := "levels/test_map_1_newres.ldtk"

def LEVEL2_PATH : String := "levels/level_2.ldtk"

/-- The static current-to-next level mapping hard-coded in transition.rs
    lines 208-215: only the first level maps to a next level. -/
def nextLevelFor (current : String) : Option (String × String) :=
  if current = TEST_MAP_PATH then some (LEVEL2_PATH, "Level_0") else none

/-- transition.rs lines 186-196: the 9 sample offsets (center, corners, edge
    midpoints). -/
def triggerOffsets (half_size : Vec2q) : List Vec2q :=
  [⟨0, 0⟩,
   ⟨-half_size.x, -half_size.y⟩, ⟨half_size.x, -half_size.y⟩,
   ⟨-half_size.x, half_size.y⟩, ⟨half_size.x, half_size.y⟩,
   ⟨0, -half_size.y⟩, ⟨0, half_size.y⟩,
   ⟨-half_size.x, 0⟩, ⟨half_size.x, 0⟩]

/-- transition.rs lines 199-202: world position to tile coordinate. -/
def tileAt (m : CollisionMap) (p : Vec2q) : ℤ × ℤ :=
  (⌊(p.x - m.origin.x) / m.tile_size.x⌋, ⌊(p.y - m.origin.y) / m.tile_size.y⌋)

/-- transition.rs lines 198-219 loop condition: some sample point reads a
    trigger tile (IntGrid value 2). -/
def triggerHit (m : CollisionMap) (position half_size : Vec2q) : Bool :=
  (triggerOffsets half_size).any fun off =>
    decide (m.get_tile_value (tileAt m ⟨position.x + off.x, position.y + off.y⟩) = some 2)

/-- transition.rs lines 133-220 (`check_level_triggers`).  The player query is
    an `Option` (system skips when no player), the debug key branch only logs
    and is omitted. -/
def check_level_triggers (pl : Option (Vec3q × Vec2q)) (m : CollisionMap)
    (assets : LevelAssets) (s : TransitionState) : TransitionState :=
  if s.is_transitioning then s
  else
    match pl with
    | none => s
    | some (tr, half_size) =>
      let position : Vec2q := ⟨tr.x, tr.y⟩
      if triggerHit m position half_size then
        match nextLevelFor (assets.project_path.getD TEST_MAP_PATH) with
        | some (path, name) => s.start_transition path name
        | none => s
      else s

/-- States of the `TransitionState` resource reachable through the operations
    the program performs on it. -/
inductive ReachableTransition : TransitionState → Prop where
  | init : ReachableTransition initialTransitionState
  | start (s : TransitionState) (p n : String) :
      ReachableTransition s → ReachableTransition (s.start_transition p n)
  | reset (s : TransitionState) : ReachableTransition s → ReachableTransition s.reset
  | update (dt : ℚ) (s : TransitionState) (cfg : LevelConfig) :
      ReachableTransition s → ReachableTransition (update_transition dt s cfg).transition
  | check (pl : Option (Vec3q × Vec2q)) (m : CollisionMap) (assets : LevelAssets)
      (s : TransitionState) :
      ReachableTransition s → ReachableTransition (check_level_triggers pl m assets s)

/-! Collision-map rebuild (src/collision.rs lines 90-114). -/

/-- One iteration of the rebuild loop of `rebuild_collision_map`: positive
    values are recorded in `tile_values`, value 1 additionally in `solids`. -/
def populateStep (m : CollisionMap) (cell : (ℤ × ℤ) × ℤ) : CollisionMap :=
  if 0 < cell.2 then
    { m with
      solids :=
        if cell.2 = 1 then fun t => if t = cell.1 then true else m.solids t else m.solids
      tile_values := fun t => if t = cell.1 then some cell.2 else m.tile_values t }
  else m

/-- The `for (coords, cell, _) in &int_cells` loop of `rebuild_collision_map`. -/
def populate (m : CollisionMap) (cells : List ((ℤ × ℤ) × ℤ)) : CollisionMap :=
  cells.foldl populateStep m

/-- The player AABB (center `p`, half extents `half`) and the interior of tile
    `t` of map `m` intersect. -/
def tileInteriorOverlap (p : Vec3q) (half : Vec2q) (m : CollisionMap) (t : ℤ × ℤ) : Prop :=
  m.origin.x + (t.1 : ℚ) * m.tile_size.x < p.x + half.x ∧
  p.x - half.x < m.origin.x + ((t.1 : ℚ) + 1) * m.tile_size.x ∧
  m.origin.y + (t.2 : ℚ) * m.tile_size.y < p.y + half.y ∧
  p.y - half.y < m.origin.y + ((t.2 : ℚ) + 1) * m.tile_size.y

/-! Theorems. -/

/-- C10: `resolve_horizontal` modifies only `position.x` (and the horizontal
    velocity), leaving `position.y` and `position.z` unchanged, and
    `resolve_vertical` modifies only `position.y` (and the vertical velocity),
    leaving `position.x` and `position.z` unchanged, for every input. -/
theorem C10_axis_frame_effect (p : Vec3q) (v : ℚ) (half : Vec2q) (dt : ℚ) (m : CollisionMap) :
    (resolve_horizontal p v half dt m).position.y = p.y ∧
    (resolve_horizontal p v half dt m).position.z = p.z ∧
    (resolve_vertical p v half dt m).position.x = p.x ∧
    (resolve_vertical p v half dt m).position.z = p.z := by
  refine ⟨?_, ?_, ?_, ?_⟩ <;>
    (first
      | simp only [resolve_horizontal]
      | simp only [resolve_vertical]) <;>
    (split_ifs <;> rfl)

/-- C6: while a transition is active, the trigger-sampling system is a no-op on
    the transition state even when a sample point reads a trigger tile: no
    second transition is started and neither the pending level nor the fade
    timer is overwritten. -/
theorem C6_reentrancy_guard (tr : Vec3q) (half_size : Vec2q) (m : CollisionMap)
    (assets : LevelAssets) (s : TransitionState)
    (hactive : s.is_transitioning = true)
    (hhit : triggerHit m ⟨tr.x, tr.y⟩ half_size = true) :
    check_level_triggers (some (tr, half_size)) m assets s = s := by
  unfold check_level_triggers
  simp [hactive]

/-- C7: when a sample point reads a trigger tile but the current level identity
    is not in the static current-to-next mapping, no transition is started and
    the transition state is returned unchanged. -/
theorem C7_unmapped_level_noop (tr : Vec3q) (half_size : Vec2q) (m : CollisionMap)
    (assets : LevelAssets) (s : TransitionState)
    (hidle : s.is_transitioning = false)
    (hhit : triggerHit m ⟨tr.x, tr.y⟩ half_size = true)
    (hunmapped : nextLevelFor (assets.project_path.getD TEST_MAP_PATH) = none) :
    check_level_triggers (some (tr, half_size)) m assets s = s := by
  unfold check_level_triggers
  simp [hidle, hhit, hunmapped]

/-- C5: each tick the new horizontal velocity moves from the old `velocity.x`
    toward the target `input_axis * max_speed` by at most `accel_rate * dt`:
    it equals the target exactly when the gap is at most `accel_rate * dt`,
    and otherwise moves by exactly `accel_rate * dt` toward the target.  The
    axis values are the ones the input system produces (-1, 0, or 1). -/
theorem C5_clamped_linear_ramp (c : Controller) (og : Bool) (axis vx dt : ℚ)
    (accel_rate max_speed : ℚ)
    (haxis : axis = -1 ∨ axis = 0 ∨ axis = 1)
    (hacc : accel_rate = if og then c.ground_accel else c.air_accel)
    (hms : max_speed = if og then c.ground_max_speed else c.air_max_speed) :
    (|axis * max_speed - vx| ≤ accel_rate * dt →
      accelVelocityX c og axis vx dt = axis * max_speed) ∧
    (accel_rate * dt < |axis * max_speed - vx| →
      (vx < axis * max_speed → accelVelocityX c og axis vx dt = vx + accel_rate * dt) ∧
      (axis * max_speed < vx → accelVelocityX c og axis vx dt = vx - accel_rate * dt)) := by
  have htarget : accelVelocityX c og axis vx dt =
      move_towards vx (axis * max_speed) (accel_rate * dt) := by
    rcases haxis with h | h | h <;> subst h <;>
      simp [accelVelocityX, EPSILON, ← hacc, ← hms] <;> norm_num
  rw [htarget]
  unfold move_towards rustSignum
  refine ⟨fun h => by rw [if_pos h], fun h => ⟨fun hlt => ?_, fun hgt => ?_⟩⟩
  · rw [if_neg (not_le.mpr h), if_neg (by linarith : ¬axis * max_speed - vx < 0)]
    ring
  · rw [if_neg (not_le.mpr h), if_pos (by linarith : axis * max_speed - vx < 0)]
    ring

/-- Witness for C5 at a concrete input: grounded, axis 1, vx 0, dt 1/60 with
    the default controller; the gap 325 exceeds 1600/60, so the ramp moves by
    exactly 1600/60. -/
theorem C5_clamped_linear_ramp_witness :
    accelVelocityX defaultController true 1 0 (1 / 60) = 0 + 1600 * (1 / 60) := by
  have h := C5_clamped_linear_ramp defaultController true 1 0 (1 / 60) 1600 325
    (Or.inr (Or.inr rfl)) rfl rfl
  exact (h.2 (by norm_num)).1 (by norm_num)

/-- Map with a single solid tile at (0, 1), sitting just above a body centred
    at (8, 8) with half extents (8, 8). -/
def clampMapC9 : CollisionMap :=
  { tile_size := ⟨16, 16⟩, origin := ⟨0, 0⟩,
    solids := fun t => decide (t = ((0 : ℤ), (1 : ℤ))),
    tile_values := fun t => if t = ((0 : ℤ), (1 : ℤ)) then some 1 else none }

/-- C9: with `velocity.y = 0` the vertical pass takes the upward (head-bump)
    branch because `signum 0.0 = +1`, so it never reports a downward collision
    and its `up` flag is exactly the head-row solidity scan; it can clamp the
    position downward against a tile at the AABB's top edge (concrete
    instance).  The horizontal pass instead returns immediately, untouched,
    whenever `|velocity.x|` is below epsilon. -/
theorem C9_zero_velocity_vertical_head_check (p : Vec3q) (half : Vec2q) (dt : ℚ)
    (m : CollisionMap) :
    (resolve_vertical p 0 half dt m).collision.down = false ∧
    (resolve_vertical p 0 half dt m).collision.up =
      anySolidCols m ⌊(p.y + 0 * dt + half.y - m.origin.y) / m.tile_size.y⌋
        ⌊(p.x - half.x + SKIN - m.origin.x) / m.tile_size.x⌋
        ⌊(p.x + half.x - SKIN - m.origin.x) / m.tile_size.x⌋ ∧
    resolve_vertical ⟨8, 8, 0⟩ 0 ⟨8, 8⟩ 1 clampMapC9 =
      ⟨⟨8, 7999 / 1000, 0⟩, 0, ⟨false, true⟩⟩ ∧
    (∀ (p2 : Vec3q) (v2 : ℚ) (half2 : Vec2q) (dt2 : ℚ) (m2 : CollisionMap),
      |v2| < EPSILON → resolve_horizontal p2 v2 half2 dt2 m2 = ⟨p2, v2⟩) := by
  refine ⟨?_, ?_, ?_, ?_⟩
  · simp only [resolve_vertical, rustSignum]
    norm_num
    split_ifs <;> rfl
  · simp only [resolve_vertical, rustSignum]
    norm_num
    split_ifs with h <;> simp_all
  · norm_num [resolve_vertical, rustSignum, clampMapC9, anySolidCols, intRange, SKIN,
      CollisionMap.is_solid, List.range_succ]
  · intro p2 v2 half2 dt2 m2 h
    unfold resolve_horizontal
    rw [if_pos h]

/-- Witness for C9's horizontal early-return hypothesis at a concrete
    sub-epsilon velocity. -/
theorem C9_zero_velocity_witness :
    resolve_horizontal ⟨0, 0, 0⟩ (1 / 2 ^ 24) ⟨8, 8⟩ 1 clampMapC9 = ⟨⟨0, 0, 0⟩, 1 / 2 ^ 24⟩ :=
  (C9_zero_velocity_vertical_head_check ⟨0, 0, 0⟩ ⟨8, 8⟩ 1 clampMapC9).2.2.2
    ⟨0, 0, 0⟩ (1 / 2 ^ 24) ⟨8, 8⟩ 1 clampMapC9 (by rw [EPSILON]; rw [abs_lt]; constructor <;> norm_num)

/-- Map with a single solid tile at (2, 1) (world box [32,48) x [16,32) at tile
    size 16, origin 0): the tunneling counterexample scenario for C1. -/
def cmapC1 : CollisionMap :=
  { tile_size := ⟨16, 16⟩, origin := ⟨0, 0⟩,
    solids := fun t => decide (t = ((2 : ℤ), (1 : ℤ))),
    tile_values := fun t => if t = ((2 : ℤ), (1 : ℤ)) then some 1 else none }

/-- Start position of the C1 counterexample body (AABB (15.999,31.999) x
    (31.9995,47.9995), half extents (8,8)). -/
def p0C1 : Vec3q := ⟨23999 / 1000, 79999 / 2000, 0⟩

/-- C1 fails on the code: a body whose AABB overlaps no solid tile, moving
    toward the solid tile (2,1) with per-tick displacement (0.1, -15.9996) of
    norm below the tile size 16, ends the horizontal-then-vertical resolution
    with its AABB overlapping the interior of solid tile (2,1) (the horizontal
    pass checks only the skin-inset row span {2}, the vertical pass only the
    destination row 0, so the tile in row 1 is never tested). -/
theorem C1_tunneling_failing_input :
    (∀ t : ℤ × ℤ, cmapC1.is_solid t = true → ¬ tileInteriorOverlap p0C1 ⟨8, 8⟩ cmapC1 t) ∧
    (1 / 10 * 1 : ℚ) ^ 2 + (-(159996 / 10000) * 1 : ℚ) ^ 2 < cmapC1.tile_size.x ^ 2 ∧
    cmapC1.is_solid (2, 1) = true ∧
    tileInteriorOverlap
      (resolve_vertical (resolve_horizontal p0C1 (1 / 10) ⟨8, 8⟩ 1 cmapC1).position
        (-(159996 / 10000)) ⟨8, 8⟩ 1 cmapC1).position ⟨8, 8⟩ cmapC1 (2, 1) := by
  refine ⟨?_, ?_, ?_, ?_⟩
  · intro t ht
    have ht' : t = ((2 : ℤ), (1 : ℤ)) := by
      have := of_decide_eq_true (by simpa [cmapC1, CollisionMap.is_solid] using ht)
      exact this
    subst ht'
    norm_num [tileInteriorOverlap, p0C1, cmapC1]
  · norm_num [cmapC1]
  · simp [cmapC1, CollisionMap.is_solid]
  · have heval : (resolve_vertical (resolve_horizontal p0C1 (1 / 10) ⟨8, 8⟩ 1 cmapC1).position
        (-(159996 / 10000)) ⟨8, 8⟩ 1 cmapC1).position = ⟨24099 / 1000, 239999 / 10000, 0⟩ := by
      norm_num [resolve_vertical, resolve_horizontal, p0C1, cmapC1, anySolidRows, anySolidCols,
        intRange, SKIN, EPSILON, rustSignum, CollisionMap.is_solid, List.range_succ, abs_lt,
        abs_le]
    rw [heval]
    norm_num [tileInteriorOverlap, cmapC1]

/-- The grounded flag computed inside `apply_kinematics` is
    `groundedAfterResolve`. -/
theorem grounded_cond_eq (s : Settings) (c : Controller) (half : Vec2q) (dt : ℚ)
    (m : CollisionMap) (b : Body) :
    ((resolvedAfterMove s c half dt m b).2.collision.down ||
      grounded_check (resolvedAfterMove s c half dt m b).2.position half m) =
    groundedAfterResolve s c half dt m b := rfl

/-- C2: with jump intent pending at the start of a tick, the tick clears
    `wants_jump` unconditionally; no impulse fires while the post-resolution
    grounded flag is false; on the tick in which grounded becomes true exactly
    one impulse fires (`velocity.y := jump_strength`, `on_ground := false`);
    and the following tick cannot fire again because the intent was consumed. -/
theorem C2_jump_buffer (s : Settings) (c : Controller) (half : Vec2q) (dt : ℚ)
    (m : CollisionMap) (b : Body) (hw : b.wants_jump = true) :
    (applyKinematics s c half dt m b).wants_jump = false ∧
    (groundedAfterResolve s c half dt m b = false → jumpFired s c half dt m b = false) ∧
    (groundedAfterResolve s c half dt m b = true →
      jumpFired s c half dt m b = true ∧
      (applyKinematics s c half dt m b).velocity.y = c.jump_strength ∧
      (applyKinematics s c half dt m b).on_ground = false) ∧
    jumpFired s c half dt m (applyKinematics s c half dt m b) = false ∧
    (∀ b2 : Body, (applyKinematics s c half dt m b2).wants_jump = false) := by
  have hclear : ∀ b2 : Body, (applyKinematics s c half dt m b2).wants_jump = false := by
    intro b2
    simp only [applyKinematics]
    split_ifs <;> rfl
  refine ⟨hclear b, ?_, ?_, ?_, hclear⟩
  · intro h
    rw [jumpFired, h, Bool.and_false]
  · intro h
    refine ⟨by rw [jumpFired, hw, h, Bool.and_true], ?_, ?_⟩ <;>
      · simp only [applyKinematics]
        rw [grounded_cond_eq, hw, h, Bool.true_and, if_pos rfl]
  · rw [jumpFired, hclear b, Bool.false_and]

/-- Map with a single solid ground tile at (0, 0). -/
def groundMapC2 : CollisionMap :=
  { tile_size := ⟨16, 16⟩, origin := ⟨0, 0⟩,
    solids := fun t => decide (t = ((0 : ℤ), (0 : ℤ))),
    tile_values := fun t => if t = ((0 : ℤ), (0 : ℤ)) then some 1 else none }

/-- Airborne body falling onto the ground tile with jump intent pending. -/
def bodyC2 : Body := ⟨⟨8, 26, 0⟩, ⟨0, -40⟩, false, true, 0⟩

/-- Witness for C2: the falling body lands this tick, the buffered jump fires
    once, and the intent is consumed. -/
theorem C2_jump_buffer_witness :
    (applyKinematics defaultSettings defaultController ⟨8, 8⟩ (1 / 10) groundMapC2
      bodyC2).velocity.y = 480 ∧
    (applyKinematics defaultSettings defaultController ⟨8, 8⟩ (1 / 10) groundMapC2
      bodyC2).on_ground = false ∧
    (applyKinematics defaultSettings defaultController ⟨8, 8⟩ (1 / 10) groundMapC2
      bodyC2).wants_jump = false := by
  have hg : groundedAfterResolve defaultSettings defaultController ⟨8, 8⟩ (1 / 10) groundMapC2
      bodyC2 = true := by
    norm_num [groundedAfterResolve, resolvedAfterMove, gravityVelocityY, accelVelocityX,
      move_towards, resolve_horizontal, resolve_vertical, grounded_check, anySolidCols,
      anySolidRows, intRange, rustSignum, SKIN, EPSILON, groundMapC2, bodyC2,
      defaultSettings, defaultController, CollisionMap.is_solid, List.range_succ, abs_lt, abs_le]
  have h := C2_jump_buffer defaultSettings defaultController ⟨8, 8⟩ (1 / 10) groundMapC2
    bodyC2 rfl
  exact ⟨((h.2.2.1 hg).2.1).trans (by norm_num [defaultController]), (h.2.2.1 hg).2.2, h.1⟩

/-- A tick of `update_transition` on a state with no pending level never swaps
    and leaves the pending level empty. -/
theorem update_pending_none (d : ℚ) (s : TransitionState) (cfg : LevelConfig)
    (h : s.next_level_path = none) :
    (update_transition d s cfg).swapped = false ∧
    (update_transition d s cfg).transition.next_level_path = none := by
  by_cases ht : s.is_transitioning = false
  · simp [update_transition, ht, h]
  · simp only [update_transition, if_neg ht, h]
    split_ifs <;> simp [TransitionState.reset]

/-- No swap can ever fire once the pending level is empty. -/
theorem swapCount_pending_none :
    ∀ (dts : List ℚ) (s : TransitionState) (cfg : LevelConfig),
      s.next_level_path = none → swapCount s cfg dts = 0 := by
  intro dts
  induction dts with
  | nil => intro s cfg h; rfl
  | cons d rest ih =>
    intro s cfg h
    have hu := update_pending_none d s cfg h
    simp [swapCount, hu.1]
    exact ih _ _ hu.2

/-- A tick that keeps the timer below the midpoint leaves the transition
    pending and swaps nothing. -/
theorem update_nocross (d t : ℚ) (p n : String) (cfg : LevelConfig)
    (h : t + d < 1 / 2) :
    update_transition d ⟨true, t, 1, some p, some n⟩ cfg =
      ⟨⟨true, t + d, 1, some p, some n⟩, cfg, false⟩ := by
  simp [update_transition]
  split_ifs with h1 h2 <;> simp_all <;> linarith

/-- The tick whose accumulated time first reaches the midpoint swaps and clears
    the pending level. -/
theorem update_cross_pending (d t : ℚ) (p n : String) (cfg : LevelConfig)
    (hcross : 1 / 2 ≤ t + d) (hbefore : t < 1 / 2) :
    (update_transition d ⟨true, t, 1, some p, some n⟩ cfg).swapped = true ∧
    (update_transition d ⟨true, t, 1, some p, some n⟩ cfg).transition.next_level_path = none := by
  simp [update_transition]
  split_ifs with h1 h2 <;>
    first
      | exact absurd ⟨by linarith, by linarith⟩ h1
      | simp [TransitionState.reset]

/-- Over any run from a mid-fade pending state, the number of swaps is the
    indicator of the accumulated time reaching the midpoint. -/
theorem swapCount_run :
    ∀ (dts : List ℚ) (t : ℚ) (cfg : LevelConfig) (p n : String),
      (∀ d ∈ dts, 0 ≤ d) → 0 ≤ t → t < 1 / 2 →
      swapCount ⟨true, t, 1, some p, some n⟩ cfg dts =
        if 1 / 2 ≤ t + dts.sum then 1 else 0 := by
  intro dts
  induction dts with
  | nil =>
    intro t cfg p n hpos ht0 ht
    simp only [swapCount, List.sum_nil, add_zero]
    rw [if_neg (by linarith)]
  | cons d rest ih =>
    intro t cfg p n hpos ht0 ht
    have hd : 0 ≤ d := hpos d (List.mem_cons_self d rest)
    have hrest : ∀ x ∈ rest, (0 : ℚ) ≤ x := fun x hx => hpos x (List.mem_cons_of_mem d hx)
    have hsum : 0 ≤ rest.sum := List.sum_nonneg hrest
    by_cases hcross : 1 / 2 ≤ t + d
    · have hu := update_cross_pending d t p n cfg hcross ht
      simp only [swapCount, List.sum_cons, hu.1, if_pos rfl]
      rw [swapCount_pending_none rest _ _ hu.2]
      rw [if_pos (show (1 : ℚ) / 2 ≤ t + (d + rest.sum) by linarith)]
      simp
    · rw [swapCount, update_nocross d t p n cfg (by linarith)]
      simp only [if_neg Bool.false_ne_true]
      rw [ih (t + d) cfg p n hrest (by linarith) (by linarith)]
      simp only [List.sum_cons]
      ring_nf

/-- C3: for a transition started with duration 1.0 s, the overlay alpha is the
    linear up-then-down ramp (0.5 at t = 0.25, 1.0 at t = 0.5, 0.5 at t = 0.75,
    0.0 at t = 1.0), and over any sequence of nonnegative ticks the level swap
    fires exactly once, on the first tick whose accumulated elapsed time
    reaches 0.5 s (applying the statement to each prefix of the run gives the
    cumulative swap count as the indicator of the midpoint being reached). -/
theorem C3_fade_ramp_and_single_swap (s0 : TransitionState) (p n : String)
    (cfg : LevelConfig) (dts : List ℚ) (hpos : ∀ d ∈ dts, 0 ≤ d) :
    TransitionState.get_fade_alpha { s0.start_transition p n with fade_timer := 1 / 4 } = 1 / 2 ∧
    TransitionState.get_fade_alpha { s0.start_transition p n with fade_timer := 1 / 2 } = 1 ∧
    TransitionState.get_fade_alpha { s0.start_transition p n with fade_timer := 3 / 4 } = 1 / 2 ∧
    TransitionState.get_fade_alpha { s0.start_transition p n with fade_timer := 1 } = 0 ∧
    swapCount (s0.start_transition p n) cfg dts = if 1 / 2 ≤ dts.sum then 1 else 0 := by
  have hs : s0.start_transition p n = ⟨true, 0, 1, some p, some n⟩ := rfl
  refine ⟨?_, ?_, ?_, ?_, ?_⟩
  · rw [hs]; norm_num [TransitionState.get_fade_alpha]
  · rw [hs]; norm_num [TransitionState.get_fade_alpha]
  · rw [hs]; norm_num [TransitionState.get_fade_alpha]
  · rw [hs]; norm_num [TransitionState.get_fade_alpha]
  · rw [hs, swapCount_run dts 0 cfg p n hpos le_rfl (by norm_num)]
    rw [zero_add]

/-- Witness for C3 over the concrete run of four quarter-second ticks: the swap
    fires exactly once. -/
theorem C3_fade_ramp_witness :
    swapCount (initialTransitionState.start_transition LEVEL2_PATH "Level_0")
      ⟨TEST_MAP_PATH, none⟩ [1 / 4, 1 / 4, 1 / 4, 1 / 4] = 1 := by
  have h := C3_fade_ramp_and_single_swap initialTransitionState LEVEL2_PATH "Level_0"
    ⟨TEST_MAP_PATH, none⟩ [1 / 4, 1 / 4, 1 / 4, 1 / 4]
    (by intro d hd; fin_cases hd <;> norm_num)
  rw [h.2.2.2.2]
  norm_num

/-- `check_level_triggers` either leaves the state unchanged or starts a
    transition. -/
theorem check_level_triggers_cases (pl : Option (Vec3q × Vec2q)) (m : CollisionMap)
    (assets : LevelAssets) (s : TransitionState) :
    check_level_triggers pl m assets s = s ∨
    ∃ p2 n2, check_level_triggers pl m assets s = s.start_transition p2 n2 := by
  unfold check_level_triggers
  split_ifs with h1
  · exact Or.inl rfl
  · cases pl with
    | none => exact Or.inl rfl
    | some pr =>
      cases pr with
      | mk tr half_size =>
        simp only
        split_ifs with h2
        · cases hnl : nextLevelFor (assets.project_path.getD TEST_MAP_PATH) with
          | none => simp [hnl]
          | some pn => cases pn with
            | mk p2 n2 => exact Or.inr ⟨p2, n2, by simp [hnl]⟩
        · exact Or.inl rfl

/-- C4 counterexample: one 0.6 s tick after starting a transition, the state is
    reachable, still in-flight (`is_transitioning = true`), yet the pending
    level has been consumed (`next_level_path = next_level_name = none`),
    refuting the claimed "Some iff in-flight" invariant. -/
theorem C4_pending_iff_counterexample :
    ReachableTransition (update_transition (3 / 5)
      (initialTransitionState.start_transition LEVEL2_PATH "Level_0")
      ⟨TEST_MAP_PATH, none⟩).transition ∧
    (update_transition (3 / 5)
      (initialTransitionState.start_transition LEVEL2_PATH "Level_0")
      ⟨TEST_MAP_PATH, none⟩).transition.is_transitioning = true ∧
    (update_transition (3 / 5)
      (initialTransitionState.start_transition LEVEL2_PATH "Level_0")
      ⟨TEST_MAP_PATH, none⟩).transition.next_level_path = none ∧
    (update_transition (3 / 5)
      (initialTransitionState.start_transition LEVEL2_PATH "Level_0")
      ⟨TEST_MAP_PATH, none⟩).transition.next_level_name = none := by
  have heval : update_transition (3 / 5)
      (initialTransitionState.start_transition LEVEL2_PATH "Level_0")
      ⟨TEST_MAP_PATH, none⟩ =
      ⟨⟨true, 3 / 5, 1, none, none⟩, ⟨LEVEL2_PATH, some "Level_0"⟩, true⟩ := by
    norm_num [update_transition, TransitionState.start_transition, initialTransitionState]
  refine ⟨ReachableTransition.update _ _ _
    (ReachableTransition.start _ _ _ ReachableTransition.init), ?_, ?_, ?_⟩ <;>
    rw [heval]

/-- C4 amended: in every reachable transition state, a pending level
    (`next_level_path`/`next_level_name` being `Some`) implies a transition is
    in-flight; and the midpoint tick always clears the pending level.  (The
    converse of the first part is false: after the midpoint consumption the
    transition stays in-flight with the pending level already cleared.) -/
theorem C4_pending_implies_active :
    (∀ s : TransitionState, ReachableTransition s →
      (s.next_level_path.isSome = true ∨ s.next_level_name.isSome = true) →
      s.is_transitioning = true) ∧
    (∀ (dt : ℚ) (s : TransitionState) (cfg : LevelConfig),
      s.is_transitioning = true →
      s.fade_duration * (1 / 2) ≤ s.fade_timer + dt →
      s.fade_timer < s.fade_duration * (1 / 2) →
      (update_transition dt s cfg).transition.next_level_path = none ∧
      (update_transition dt s cfg).transition.next_level_name = none) := by
  constructor
  · intro s hs
    induction hs with
    | init => intro h; simp [initialTransitionState] at h
    | start s p n hs ih => intro h; rfl
    | reset s hs ih => intro h; simp [TransitionState.reset] at h
    | update dt s cfg hs ih =>
      by_cases ht : s.is_transitioning = false
      · simp only [update_transition, if_pos ht]
        exact ih
      · have ht' : s.is_transitioning = true := by revert ht; cases s.is_transitioning <;> simp
        intro h
        simp only [update_transition, if_neg ht] at h ⊢
        split_ifs at h ⊢ with h1 h2 h3
        · simp [TransitionState.reset] at h
        · cases hsp : s.next_level_path <;> cases hsn : s.next_level_name <;>
            simp [hsp, hsn] at h
        · simp [TransitionState.reset] at h
        · simpa using ht'
    | check pl m assets s hs ih =>
      rcases check_level_triggers_cases pl m assets s with hc | ⟨p2, n2, hc⟩
      · rw [hc]; exact ih
      · rw [hc]; intro h; rfl
  · intro dt s cfg ht hcross hbefore
    have hcond : s.fade_duration * (1 / 2) ≤ s.fade_timer + dt ∧
        s.fade_timer + dt - dt < s.fade_duration * (1 / 2) := by
      constructor
      · exact hcross
      · rw [add_sub_cancel_right]; exact hbefore
    simp only [update_transition, if_neg (show ¬s.is_transitioning = false by simp [ht]),
      if_pos hcond]
    cases hsp : s.next_level_path <;> cases hsn : s.next_level_name <;>
      simp [hsp, hsn] <;> split_ifs <;> simp [TransitionState.reset]

/-- Witness for the amended C4 at a concrete reachable state with a pending
    level. -/
theorem C4_pending_implies_active_witness :
    (initialTransitionState.start_transition LEVEL2_PATH "Level_0").is_transitioning = true :=
  C4_pending_implies_active.1 _
    (ReachableTransition.start _ _ _ ReachableTransition.init) (Or.inl rfl)

theorem populateStep_other (m : CollisionMap) (a : (ℤ × ℤ) × ℤ) (c : ℤ × ℤ) (h : a.1 ≠ c) :
    (populateStep m a).tile_values c = m.tile_values c ∧
    (populateStep m a).solids c = m.solids c := by
  have h' : c ≠ a.1 := Ne.symm h
  unfold populateStep
  split_ifs <;> simp [h']

theorem populateStep_same (m : CollisionMap) (a : (ℤ × ℤ) × ℤ) :
    (populateStep m a).tile_values a.1 =
      (if 0 < a.2 then some a.2 else m.tile_values a.1) ∧
    (populateStep m a).solids a.1 =
      (if a.2 = 1 then true else m.solids a.1) := by
  unfold populateStep
  split_ifs with h1 h2 <;> simp_all

theorem populate_not_mem :
    ∀ (cells : List ((ℤ × ℤ) × ℤ)) (m : CollisionMap) (c : ℤ × ℤ),
      (∀ p ∈ cells, p.1 ≠ c) →
      (populate m cells).tile_values c = m.tile_values c ∧
      (populate m cells).solids c = m.solids c := by
  intro cells
  induction cells with
  | nil => intro m c h; exact ⟨rfl, rfl⟩
  | cons a rest ih =>
    intro m c h
    have ha := h a (List.mem_cons_self a rest)
    have h' := fun p hp => h p (List.mem_cons_of_mem a hp)
    have hrest := ih (populateStep m a) c h'
    have hstep := populateStep_other m a c ha
    exact ⟨hrest.1.trans hstep.1, hrest.2.trans hstep.2⟩

theorem populate_lookup :
    ∀ (cells : List ((ℤ × ℤ) × ℤ)) (m : CollisionMap) (c : ℤ × ℤ),
      (cells.map Prod.fst).Nodup →
      (populate m cells).tile_values c =
        (match cells.find? (fun p => decide (p.1 = c)) with
          | some p => if 0 < p.2 then some p.2 else m.tile_values c
          | none => m.tile_values c) ∧
      (populate m cells).solids c =
        (match cells.find? (fun p => decide (p.1 = c)) with
          | some p => if p.2 = 1 then true else m.solids c
          | none => m.solids c) := by
  intro cells
  induction cells with
  | nil => intro m c hn; exact ⟨rfl, rfl⟩
  | cons a rest ih =>
    intro m c hn
    have hn' : (rest.map Prod.fst).Nodup := (List.nodup_cons.mp hn).2
    by_cases hc : a.1 = c
    · have hnot : ∀ p ∈ rest, p.1 ≠ c := by
        intro p hp hpc
        have : a.1 ∈ rest.map Prod.fst := by
          rw [hc, ← hpc]
          exact List.mem_map_of_mem Prod.fst hp
        exact (List.nodup_cons.mp hn).1 this
      have hrest := populate_not_mem rest (populateStep m a) c hnot
      have hstep := populateStep_same m a
      rw [List.find?_cons_of_pos _ (by simpa using hc)]
      subst hc
      exact ⟨hrest.1.trans hstep.1, hrest.2.trans hstep.2⟩
    · have hstep := populateStep_other m a c (by simpa using hc)
      have hrest := ih (populateStep m a) c hn'
      rw [List.find?_cons_of_neg _ (by simpa using hc)]
      refine ⟨hrest.1.trans ?_, hrest.2.trans ?_⟩ <;>
        cases hfind : rest.find? (fun p => decide (p.1 = c)) <;>
          simp [hfind, hstep.1, hstep.2]

theorem find_key_perm :
    ∀ {l1 l2 : List ((ℤ × ℤ) × ℤ)}, l1.Perm l2 → (l1.map Prod.fst).Nodup →
      ∀ c : ℤ × ℤ,
      l1.find? (fun p => decide (p.1 = c)) = l2.find? (fun p => decide (p.1 = c)) := by
  intro l1 l2 hp
  induction hp with
  | nil => intro _ c; rfl
  | cons x hpl ih =>
    intro hn c
    by_cases hx : x.1 = c
    · rw [List.find?_cons_of_pos _ (by simpa using hx),
        List.find?_cons_of_pos _ (by simpa using hx)]
    · rw [List.find?_cons_of_neg _ (by simpa using hx),
        List.find?_cons_of_neg _ (by simpa using hx)]
      rw [List.map_cons] at hn
      exact ih (List.nodup_cons.mp hn).2 c
  | swap x y l =>
    intro hn c
    by_cases hy : y.1 = c <;> by_cases hx : x.1 = c
    · exfalso
      simp only [List.map_cons, List.nodup_cons, List.mem_cons] at hn
      exact hn.1 (Or.inl (by rw [hy, hx]))
    · rw [List.find?_cons_of_pos _ (by simpa using hy),
        List.find?_cons_of_neg _ (by simpa using hx),
        List.find?_cons_of_pos _ (by simpa using hy)]
    · rw [List.find?_cons_of_neg _ (by simpa using hy),
        List.find?_cons_of_pos _ (by simpa using hx),
        List.find?_cons_of_pos _ (by simpa using hx)]
    · rw [List.find?_cons_of_neg _ (by simpa using hy),
        List.find?_cons_of_neg _ (by simpa using hx),
        List.find?_cons_of_neg _ (by simpa using hx),
        List.find?_cons_of_neg _ (by simpa using hy)]
  | trans h12 h23 ih1 ih2 =>
    intro hn c
    have hn2 := (h12.map Prod.fst).nodup_iff.mp hn
    exact (ih1 hn c).trans (ih2 hn2 c)

/-- C8: populating from a tile set, clearing, and repopulating from any
    permutation of the same tile set leaves `is_solid` and `tile_value`
    unchanged at every tile coordinate (tile coordinates are distinct in an
    IntGrid layer, hence the Nodup hypothesis). -/
theorem C8_clear_rebuild_roundtrip (m0 : CollisionMap) (S S2 : List ((ℤ × ℤ) × ℤ))
    (c : ℤ × ℤ) (hn : (S.map Prod.fst).Nodup) (hp : S.Perm S2) :
    (populate ((populate m0.clear S).clear) S2).is_solid c =
      (populate m0.clear S).is_solid c ∧
    (populate ((populate m0.clear S).clear) S2).get_tile_value c =
      (populate m0.clear S).get_tile_value c := by
  have hn2 : (S2.map Prod.fst).Nodup := (hp.map Prod.fst).nodup_iff.mp hn
  have h1 := populate_lookup S m0.clear c hn
  have h2 := populate_lookup S2 ((populate m0.clear S).clear) c hn2
  have hfind := find_key_perm hp hn c
  unfold CollisionMap.is_solid CollisionMap.get_tile_value
  rw [h1.1, h1.2, h2.1, h2.2, ← hfind]
  cases hf : S.find? (fun p => decide (p.1 = c)) <;> simp [CollisionMap.clear]

/-- Witness for C8 on a concrete two-tile set inserted in both orders. -/
theorem C8_clear_rebuild_witness :
    (populate ((populate (CollisionMap.mk ⟨16, 16⟩ ⟨0, 0⟩ (fun _ => false) (fun _ => none)).clear
        [(((0 : ℤ), (0 : ℤ)), (1 : ℤ)), (((1 : ℤ), (0 : ℤ)), (2 : ℤ))]).clear)
        [(((1 : ℤ), (0 : ℤ)), (2 : ℤ)), (((0 : ℤ), (0 : ℤ)), (1 : ℤ))]).is_solid (0, 0) =
      (populate (CollisionMap.mk ⟨16, 16⟩ ⟨0, 0⟩ (fun _ => false) (fun _ => none)).clear
        [(((0 : ℤ), (0 : ℤ)), (1 : ℤ)), (((1 : ℤ), (0 : ℤ)), (2 : ℤ))]).is_solid (0, 0) ∧
    (populate ((populate (CollisionMap.mk ⟨16, 16⟩ ⟨0, 0⟩ (fun _ => false) (fun _ => none)).clear
        [(((0 : ℤ), (0 : ℤ)), (1 : ℤ)), (((1 : ℤ), (0 : ℤ)), (2 : ℤ))]).clear)
        [(((1 : ℤ), (0 : ℤ)), (2 : ℤ)), (((0 : ℤ), (0 : ℤ)), (1 : ℤ))]).get_tile_value (0, 0) =
      (populate (CollisionMap.mk ⟨16, 16⟩ ⟨0, 0⟩ (fun _ => false) (fun _ => none)).clear
        [(((0 : ℤ), (0 : ℤ)), (1 : ℤ)), (((1 : ℤ), (0 : ℤ)), (2 : ℤ))]).get_tile_value (0, 0) :=
  C8_clear_rebuild_roundtrip _ _ _ (0, 0) (by decide) (by decide)

/-- Map whose tile (0,0) is a trigger tile (IntGrid value 2, non-solid). -/
def triggerMapW : CollisionMap :=
  { tile_size := ⟨16, 16⟩, origin := ⟨0, 0⟩, solids := fun _ => false,
    tile_values := fun t => if t = ((0 : ℤ), (0 : ℤ)) then some 2 else none }

/-- Witness for C6: a player standing on a trigger tile while a transition is
    mid-fade leaves the transition state untouched. -/
theorem C6_reentrancy_guard_witness :
    check_level_triggers (some (⟨8, 8, 0⟩, ⟨8, 8⟩)) triggerMapW ⟨some TEST_MAP_PATH⟩
      ⟨true, 1 / 4, 1, some LEVEL2_PATH, some "Level_0"⟩ =
    ⟨true, 1 / 4, 1, some LEVEL2_PATH, some "Level_0"⟩ :=
  C6_reentrancy_guard ⟨8, 8, 0⟩ ⟨8, 8⟩ triggerMapW ⟨some TEST_MAP_PATH⟩
    ⟨true, 1 / 4, 1, some LEVEL2_PATH, some "Level_0"⟩ rfl
    (by norm_num [triggerHit, triggerOffsets, tileAt, triggerMapW, CollisionMap.get_tile_value])

/-- Witness for C7: a player on a trigger tile while the current level is the
    second level (absent from the mapping) leaves the idle state untouched. -/
theorem C7_unmapped_level_noop_witness :
    check_level_triggers (some (⟨8, 8, 0⟩, ⟨8, 8⟩)) triggerMapW ⟨some LEVEL2_PATH⟩
      initialTransitionState = initialTransitionState :=
  C7_unmapped_level_noop ⟨8, 8, 0⟩ ⟨8, 8⟩ triggerMapW ⟨some LEVEL2_PATH⟩
    initialTransitionState rfl
    (by norm_num [triggerHit, triggerOffsets, tileAt, triggerMapW, CollisionMap.get_tile_value])
    (by simp [nextLevelFor, LEVEL2_PATH, TEST_MAP_PATH])

/-- Witness instantiating C1's initial no-overlap clause at the solid tile. -/
theorem C1_tunneling_failing_input_witness :
    ¬ tileInteriorOverlap p0C1 ⟨8, 8⟩ cmapC1 (2, 1) :=
  C1_tunneling_failing_input.1 (2, 1) (by simp [cmapC1, CollisionMap.is_solid])
